import Mathlib

/-!
A shallow embedding of the two front-end source files of this repository:
the coffee-search single-page app (an input form, a fetch-based search
request, and a result table) and the documentation-site benchmark chart
builders.  Numbers are modelled as rationals; the JavaScript coercion of a
number to a string is modelled for finite decimal values.
-/

/-- Rendering of a nonnegative rational with a finite decimal expansion,
as JavaScript prints such a number: no decimal point for integers, else a
decimal point with the minimal number of digits. -/
def jsNumToStringNonneg (q : ℚ) : String :=
  match (List.range 21).find? (fun k => 10 ^ k % q.den = 0) with
  | some 0 => toString q.num
  | some (k + 1) =>
      let m : ℕ := q.num.toNat * (10 ^ (k + 1) / q.den)
      let cs : List Char := (toString m).toList
      let cs : List Char :=
        List.replicate (k + 2 - cs.length) (Char.ofNat 48) ++ cs
      String.mk (cs.take (cs.length - (k + 1))) ++ "." ++
        String.mk (cs.drop (cs.length - (k + 1)))
  | none => toString q.num ++ "/" ++ toString q.den

/-- JavaScript coercion of a number to a string (for finite decimal
values, the only ones this code base produces). -/
def jsNumToString (q : ℚ) : String :=
  if q < 0 then "-" ++ jsNumToStringNonneg (-q) else jsNumToStringNonneg q

/-- The four numeric search parameters of the search form, source:
`getData` in the app file.  Field order follows the object literal
`{ aroma, flavor, acidity, sweetness }`. -/
structure FilterSet where
  aroma : ℚ
  flavor : ℚ
  acidity : ℚ
  sweetness : ℚ
deriving DecidableEq, Repr

/-- `Object.entries` of the literal `{ aroma, flavor, acidity, sweetness }`:
string keys in insertion order. -/
def filterEntries (v : FilterSet) : List (String × ℚ) :=
  [("aroma", v.aroma), ("flavor", v.flavor),
   ("acidity", v.acidity), ("sweetness", v.sweetness)]

/-- The URL built by `getData`: base URL chosen by the build mode, then
`/search?` and the `k=v` pairs joined with `&`. -/
def getDataURL (dev : Bool) (v : FilterSet) : String :=
  let URL : String := if dev then "http://localhost:4000" else ""
  let params : String :=
    String.intercalate "&"
      ((filterEntries v).map (fun kv => kv.1 ++ "=" ++ jsNumToString kv.2))
  URL ++ "/search?" ++ params

/-- C1: `getData` issues its GET to
`<base>/search?aroma=<a>&flavor=<f>&acidity=<ac>&sweetness=<s>` with the
four parameters in exactly that order, each value coerced to a string,
where `<base>` is `http://localhost:4000` in a local-development build and
the empty string in a packaged build. -/
theorem getDataURL_shape (dev : Bool) (v : FilterSet) :
    getDataURL dev v =
      (if dev then "http://localhost:4000" else "") ++
        "/search?aroma=" ++ jsNumToString v.aroma ++
        "&flavor=" ++ jsNumToString v.flavor ++
        "&acidity=" ++ jsNumToString v.acidity ++
        "&sweetness=" ++ jsNumToString v.sweetness := by
  cases dev <;>
    (simp [getDataURL, filterEntries, String.intercalate, String.intercalate.go,
      ← String.append_assoc]
     simp [String.append_assoc])

/-- A JSON value appearing in a result-set cell; the app treats cells as
opaque and renders them by string coercion in the template of `Row`. -/
inductive Value where
  | num (q : ℚ)
  | str (s : String)
deriving DecidableEq, Repr

/-- JavaScript template-literal coercion of a cell value to a string. -/
def Value.coerce : Value → String
  | Value.num q => jsNumToString q
  | Value.str s => s

/-- The response shape of `getData`: an array of arrays of values. -/
abbrev Data := List (List Value)

/-- The rendered output of the `Table` component: a fixed header row of
column labels and one body row of cell strings per result row. -/
structure TableHtml where
  header : List String
  body : List (List String)
deriving DecidableEq, Repr

/-- The `Table` component render: the literal `thead` labels, and a body
of `(data ?? []).map` over rows, each cell being the string coercion of
the value (`Row`). -/
def renderTable (data : Option Data) : TableHtml :=
  { header := ["Owner", "Aroma", "Flavor", "Acidity", "Sweetness"],
    body := (data.getD []).map (fun row => row.map Value.coerce) }

/-- C2: the table renders exactly one row per outer element and one cell
per inner element, each cell the string coercion of the value; on
`[[1, "a"], [2, "b"]]` exactly two rows of two cells with contents
`"1", "a"` and `"2", "b"`; an empty or undefined result set renders zero
body rows. -/
theorem renderTable_contract :
    (∀ (rows : Data) (i j : ℕ),
        ((renderTable (some rows)).body[i]?.bind (fun r => r[j]?)) =
          (rows[i]?.bind (fun r => (r[j]?.map Value.coerce)))) ∧
    (∀ rows : Data,
        (renderTable (some rows)).body.length = rows.length ∧
        ∀ i : ℕ,
          (renderTable (some rows)).body[i]?.map List.length =
            rows[i]?.map List.length) ∧
    (renderTable (some [])).body = [] ∧
    (renderTable none).body = [] ∧
    (renderTable
        (some [[Value.num 1, Value.str "a"],
               [Value.num 2, Value.str "b"]])).body =
      [["1", "a"], ["2", "b"]] := by
  refine ⟨?_, ?_, rfl, rfl, ?_⟩
  · intro rows i j
    cases h : rows[i]? <;>
      simp [renderTable, List.getElem?_map, h]
  · intro rows
    refine ⟨by simp [renderTable], ?_⟩
    intro i
    cases h : rows[i]? <;>
      simp [renderTable, List.getElem?_map, h]
  · decide

/-- C9: the rendered table always carries the fixed header row
`Owner, Aroma, Flavor, Acidity, Sweetness`, independent of the result
set. -/
theorem renderTable_header_fixed :
    (∀ data : Option Data,
        (renderTable data).header =
          ["Owner", "Aroma", "Flavor", "Acidity", "Sweetness"]) ∧
    (∀ d d' : Option Data, (renderTable d).header = (renderTable d').header) := by
  exact ⟨fun _ => rfl, fun _ _ => rfl⟩

/-- `transformTimeTicks` from the benchmarks file: given a factor (the
source default is `0.5`), returns a tick callback that ignores the tick
value and labels every tenth index with the estimated elapsed seconds
`~<index * factor>s`. -/
def transformTimeTicks (factor : ℚ) : Value → ℕ → Option String :=
  fun _value index =>
    if index % 10 = 0 then
      some ("~" ++ jsNumToString ((index : ℚ) * factor) ++ "s")
    else
      none

/-- JavaScript truncation toward zero of a rational number. -/
def jsTrunc (q : ℚ) : ℤ := q.num.tdiv (q.den : ℤ)

/-- The JavaScript remainder operator on numbers:
`x % y = x - y * trunc (x / y)`. -/
def jsMod (x y : ℚ) : ℚ := x - y * (jsTrunc (x / y) : ℚ)

/-- `transformMillisecondTicks` from the benchmarks file: coerces the
tick value to a number, labels it `<v / 1000>s` when `v % 1000 === 0`,
and yields no label otherwise. -/
def transformMillisecondTicks (value : ℚ) (_index : ℕ) : Option String :=
  let v := value
  if jsMod v 1000 = 0 then some (jsNumToString (v / 1000) ++ "s") else none

/-- The JavaScript remainder of `v` by a nonzero modulus vanishes exactly
on the integer multiples of the modulus. -/
theorem jsMod_eq_zero_iff (v : ℚ) (y : ℚ) (hy : y ≠ 0) :
    jsMod v y = 0 ↔ ∃ n : ℤ, v = y * n := by
  unfold jsMod
  constructor
  · intro h
    exact ⟨jsTrunc (v / y), by linarith⟩
  · rintro ⟨n, rfl⟩
    have hvy : y * (n : ℚ) / y = (n : ℚ) := by field_simp
    rw [hvy]
    unfold jsTrunc
    rw [Rat.num_intCast, Rat.den_intCast]
    simp

/-- C4: the tick transformer returned by `transformTimeTicks f` labels
index `i` with `~<i * f>s` exactly when `i` is divisible by 10 and yields
no label otherwise; with factor `0.5` it returns `~5s` at index 10 and no
label at index 7. -/
theorem transformTimeTicks_spec :
    (∀ (factor : ℚ) (value : Value) (i : ℕ),
        (i % 10 = 0 →
          transformTimeTicks factor value i =
            some ("~" ++ jsNumToString ((i : ℚ) * factor) ++ "s")) ∧
        (i % 10 ≠ 0 → transformTimeTicks factor value i = none)) ∧
    transformTimeTicks (1 / 2) (Value.num 0) 10 = some "~5s" ∧
    transformTimeTicks (1 / 2) (Value.num 0) 7 = none := by
  refine ⟨?_, ?_, by simp [transformTimeTicks]⟩
  · intro factor value i
    constructor <;> intro h <;> simp [transformTimeTicks, h]
  · have h5 : ((10 : ℕ) : ℚ) * (1 / 2) = 5 := by norm_num
    simp only [transformTimeTicks, h5]
    norm_num
    decide

/-- Witness for C4: at factor `0.5`, index 10 the hypothesis `10 % 10 = 0`
holds and the labelled tick is produced. -/
theorem transformTimeTicks_spec_witness :
    10 % 10 = 0 ∧
    transformTimeTicks (1 / 2) (Value.num 0) 10 =
      some ("~" ++ jsNumToString (((10 : ℕ) : ℚ) * (1 / 2)) ++ "s") :=
  ⟨rfl, (transformTimeTicks_spec.1 (1 / 2) (Value.num 0) 10).1 rfl⟩

/-- C5: `transformMillisecondTicks` labels a numeric tick value `v` with
`<v / 1000>s` exactly when `v` is an integer multiple of 1000 and yields
no label otherwise; it returns `2s` at 2000 and no label at 2500. -/
theorem transformMillisecondTicks_spec :
    (∀ (v : ℚ) (i : ℕ),
        ((∃ n : ℤ, v = 1000 * n) →
          transformMillisecondTicks v i =
            some (jsNumToString (v / 1000) ++ "s")) ∧
        ((¬ ∃ n : ℤ, v = 1000 * n) → transformMillisecondTicks v i = none)) ∧
    transformMillisecondTicks 2000 0 = some "2s" ∧
    transformMillisecondTicks 2500 0 = none := by
  refine ⟨?_, ?_, ?_⟩
  · intro v i
    constructor
    · intro h
      have hz : jsMod v 1000 = 0 := (jsMod_eq_zero_iff v 1000 (by norm_num)).2 h
      simp only [transformMillisecondTicks, hz]
      simp
    · intro h
      have hz : jsMod v 1000 ≠ 0 := fun hc =>
        h ((jsMod_eq_zero_iff v 1000 (by norm_num)).1 hc)
      simp only [transformMillisecondTicks]
      rw [if_neg hz]
  · have hz : jsMod 2000 1000 = 0 := by
      rw [jsMod_eq_zero_iff 2000 1000 (by norm_num)]
      exact ⟨2, by norm_num⟩
    have hdiv : (2000 : ℚ) / 1000 = 2 := by norm_num
    simp only [transformMillisecondTicks, hz, hdiv]
    norm_num
    decide
  · have hz : jsMod 2500 1000 ≠ 0 := by
      intro h
      rw [jsMod_eq_zero_iff 2500 1000 (by norm_num)] at h
      obtain ⟨n, hn⟩ := h
      have h2n : ((2 * n : ℤ) : ℚ) = 5 := by push_cast; linarith
      have h5 : (2 * n : ℤ) = 5 := by exact_mod_cast h2n
      omega
    simp only [transformMillisecondTicks]
    rw [if_neg hz]

/-- Witness for C5: 2000 is the integer multiple `1000 * 2`, and the
formatter labels it. -/
theorem transformMillisecondTicks_spec_witness :
    (∃ n : ℤ, (2000 : ℚ) = 1000 * n) ∧
    transformMillisecondTicks 2000 0 =
      some (jsNumToString ((2000 : ℚ) / 1000) ++ "s") :=
  ⟨⟨2, by norm_num⟩, (transformMillisecondTicks_spec.1 2000 0).1 ⟨2, by norm_num⟩⟩

/-- One of the four input fields of the search form. -/
inductive FilterField where
  | aroma
  | flavor
  | acidity
  | sweetness
deriving DecidableEq, Repr

/-- The effect of the corresponding `setAroma` (etc.) state setter on the
four field values. -/
def setField (s : FilterSet) : FilterField → ℚ → FilterSet
  | FilterField.aroma, v => { s with aroma := v }
  | FilterField.flavor, v => { s with flavor := v }
  | FilterField.acidity, v => { s with acidity := v }
  | FilterField.sweetness, v => { s with sweetness := v }

/-- The state of the `Table` component: the four field values, the
displayed result set (`undefined` until a response arrives), the requests
issued whose promises have not yet resolved (with the query filters each
encoded), and a counter providing fresh request identities. -/
structure TableState where
  filters : FilterSet
  data : Option Data
  inflight : List (ℕ × FilterSet)
  nextId : ℕ
deriving DecidableEq, Repr

/-- An event of the component: a change to one input field (the effect
hook then runs: `setData(undefined)` followed by `getData(...).then`), or
the resolution of the fetch promise of in-flight request `id` with parsed
body `d`.  No code cancels a fetch or compares request identities, so a
respond event is enabled for every in-flight request, in any order. -/
inductive Event where
  | change (f : FilterField) (v : ℚ)
  | respond (id : ℕ) (d : Data)

/-- Whether an event is an input-field change. -/
def Event.isChange : Event → Bool
  | Event.change _ _ => true
  | Event.respond _ _ => false

/-- One transition of the `Table` component.  A change updates the field,
clears the displayed data, and issues exactly one new request carrying the
now-current filter values.  A respond event of any in-flight request
unconditionally replaces the displayed data with the response body. -/
def stepTable (s : TableState) : Event → Option TableState
  | Event.change f v =>
      let fs := setField s.filters f v
      some { filters := fs, data := none,
             inflight := s.inflight ++ [(s.nextId, fs)],
             nextId := s.nextId + 1 }
  | Event.respond id d =>
      if s.inflight.any (fun p => p.1 == id) then
        some { s with
                data := some d
                inflight := s.inflight.filter (fun p => p.1 != id) }
      else
        none

/-- The state after mount: default field values 8, no data, and the
effect has run once, issuing request 0 with the default values. -/
def initTable : TableState :=
  { filters := ⟨8, 8, 8, 8⟩, data := none,
    inflight := [(0, ⟨8, 8, 8, 8⟩)], nextId := 1 }

/-- Run a sequence of events from a state. -/
def runTable (s : TableState) : List Event → Option TableState
  | [] => some s
  | e :: es =>
      match stepTable s e with
      | some t => runTable t es
      | none => none

/-- C3 fails as stated: a reachable state can have a request in flight
whose response has not arrived while the displayed result set is not
`undefined`.  Concretely: after the mount request 0, a change to `aroma`
issues request 1 and clears the data; then the old response of request 0
arrives and populates the table while request 1 is still in flight. -/
theorem inflight_request_with_displayed_data :
    (runTable initTable
        [Event.change FilterField.aroma 7,
         Event.respond 0 [[Value.num 1]]]).map
        (fun s => (s.inflight.length, s.data)) =
      some (1, some [[Value.num 1]]) := by
  rfl

/-- C3 amended: the displayed result set is cleared at the moment any
request is issued, and it stays `undefined` (zero body rows) as long as
only change events occur — that is, until some response (possibly that of
an older, superseded request) arrives. -/
theorem data_cleared_on_issue :
    (∀ (s : TableState) (f : FilterField) (v : ℚ),
        (stepTable s (Event.change f v)).map TableState.data = some none) ∧
    (∀ (es : List Event) (s t : TableState),
        (∀ e ∈ es, e.isChange = true) → s.data = none →
        runTable s es = some t → t.data = none) := by
  constructor
  · intro s f v
    rfl
  · intro es
    induction es with
    | nil =>
        intro s t _ hs hrun
        simp [runTable] at hrun
        exact hrun ▸ hs
    | cons e es ih =>
        intro s t hall hs hrun
        cases e with
        | change f v =>
            simp only [runTable, stepTable] at hrun
            exact ih _ t (fun e he => hall e (List.mem_cons_of_mem _ he)) rfl hrun
        | respond id d =>
            have := hall _ (List.mem_cons_self _ _)
            simp [Event.isChange] at this

/-- Witness for the amended C3: one concrete change from the mount state
keeps the displayed data `undefined`. -/
theorem data_cleared_on_issue_witness :
    (∀ e ∈ [Event.change FilterField.flavor 5], e.isChange = true) ∧
    initTable.data = none ∧
    (TableState.mk ⟨8, 5, 8, 8⟩ none [(0, ⟨8, 8, 8, 8⟩), (1, ⟨8, 5, 8, 8⟩)] 2).data
      = none :=
  ⟨by decide, rfl,
    data_cleared_on_issue.2 [Event.change FilterField.flavor 5] initTable _
      (by decide) rfl rfl⟩

/-- C6: every change to any one field makes the transition succeed and
issue exactly one new request — the in-flight list grows by one, the
previously issued requests are untouched, and the new request carries the
four field values current at the time of the change (which are the state
field values after the change). -/
theorem change_issues_one_request :
    ∀ (s : TableState) (f : FilterField) (v : ℚ),
      (stepTable s (Event.change f v)).map
          (fun t => (t.inflight.length, t.inflight.take s.inflight.length,
                     t.inflight.getLast?, t.filters)) =
        some (s.inflight.length + 1, s.inflight,
              some (s.nextId, setField s.filters f v), setField s.filters f v) := by
  intro s f v
  simp [stepTable, List.take_left]

/-- C8: overlapping requests are neither cancelled nor sequence-checked,
and the displayed table is whatever response resolved last.  First: a
respond event of any in-flight request is enabled — no identity or order
check — and unconditionally overwrites the displayed data.  Second: a new
change leaves every already in-flight request in place.  Third, concretely:
with requests 0 and 1 both in flight, the response of the later-issued
request 1 can resolve first and the response of the earlier request 0
last, and the displayed table is then the body of request 0 — not of the
request issued last. -/
theorem overlapping_requests_race :
    (∀ (s : TableState) (id : ℕ) (d : Data),
        s.inflight.any (fun p => p.1 == id) = true →
        ∃ t, stepTable s (Event.respond id d) = some t ∧ t.data = some d) ∧
    (∀ (s : TableState) (f : FilterField) (v : ℚ),
        (stepTable s (Event.change f v)).map
            (fun t => t.inflight.take s.inflight.length) = some s.inflight) ∧
    (runTable initTable
        [Event.change FilterField.aroma 7,
         Event.respond 1 [[Value.str "new"]],
         Event.respond 0 [[Value.str "old"]]]).map TableState.data =
      some (some [[Value.str "old"]]) := by
  refine ⟨?_, ?_, rfl⟩
  · intro s id d h
    have hstep : stepTable s (Event.respond id d) =
        some { s with
                data := some d
                inflight := s.inflight.filter (fun p => p.1 != id) } := by
      simp [stepTable, h]
    exact ⟨_, hstep, rfl⟩
  · intro s f v
    simp [stepTable, List.take_left]

/-- Witness for C8: the mount request 0 is in flight in the initial state
and its response event is enabled and sets the displayed data. -/
theorem overlapping_requests_race_witness :
    initTable.inflight.any (fun p => p.1 == 0) = true ∧
    ∃ t, stepTable initTable (Event.respond 0 [[Value.num 3]]) = some t ∧
      t.data = some [[Value.num 3]] :=
  ⟨rfl, overlapping_requests_race.1 initTable 0 [[Value.num 3]] rfl⟩

-- The fixed color table of the benchmarks file.
namespace colors

def payload : String := "rgb(0, 101, 101)"

def supabase : String := "rgb(62, 207, 142)"

def pocketbase0 : String := "rgb(230, 128, 30)"

def pocketbase1 : String := "rgb(238, 175, 72)"

def trailbase0 : String := "rgb(0, 115, 170)"

def trailbase1 : String := "rgb(71, 161, 205)"

def trailbase2 : String := "rgb(146, 209, 242)"

def drizzle : String := "rgb(249, 39, 100)"

end colors

/-- One bar-chart dataset: a label, data values, and an optional fixed
background color. -/
structure BarDataset where
  label : String
  data : List ℚ
  backgroundColor : Option String
deriving DecidableEq, Repr

/-- A bar-chart configuration: axis labels and datasets in order. -/
structure BarChartData where
  labels : List String
  datasets : List BarDataset
deriving DecidableEq, Repr

/-- The literal `durations100k` fixture object of the benchmarks file. -/
structure Durations100kObj where
  payload : BarDataset
  supabase : BarDataset
  pocketbase_ts : BarDataset
  pocketbase_dart_aot : BarDataset
  pocketbase_dart_jit : BarDataset
  trailbase_ts : BarDataset
  trailbase_dart_aot : BarDataset
  trailbase_dart_jit : BarDataset
  trailbase_dart_jit_int_pk : BarDataset
  drizzle : BarDataset

/-- The literal benchmark durations fixture (seconds per 100k inserts). -/
def durations100k : Durations100kObj :=
  { payload :=
      { label := "Payload v3+SQLite", data := [656.09],
        backgroundColor := some colors.payload }
    supabase :=
      { label := "SupaBase", data := [151],
        backgroundColor := some colors.supabase }
    pocketbase_ts :=
      { label := "PocketBase TS", data := [67.721],
        backgroundColor := some colors.pocketbase0 }
    pocketbase_dart_aot :=
      { label := "PocketBase Dart (AOT)", data := [62.8136],
        backgroundColor := none }
    pocketbase_dart_jit :=
      { label := "PocketBase Dart (JIT)", data := [61.687],
        backgroundColor := some colors.pocketbase1 }
    trailbase_ts :=
      { label := "TrailBase TS", data := [16.742],
        backgroundColor := some colors.trailbase0 }
    trailbase_dart_aot :=
      { label := "TrailBase Dart (AOT)", data := [11.1],
        backgroundColor := none }
    trailbase_dart_jit :=
      { label := "TrailBase Dart", data := [9.4247],
        backgroundColor := some colors.trailbase1 }
    trailbase_dart_jit_int_pk :=
      { label := "TrailBase Dart (INT PK)", data := [8.5249],
        backgroundColor := some colors.trailbase2 }
    drizzle :=
      { label := "In-process SQLite (Drizzle)", data := [8.803],
        backgroundColor := some colors.drizzle } }

/-- The `Duration100kInsertsChart` builder: a bar chart of six of the
fixture datasets, in source order. -/
def Duration100kInsertsChart (_ : Unit) : BarChartData :=
  { labels := ["Time in seconds (lower is faster)"],
    datasets :=
      [durations100k.supabase,
       durations100k.pocketbase_ts,
       durations100k.pocketbase_dart_jit,
       durations100k.trailbase_ts,
       durations100k.trailbase_dart_jit,
       durations100k.drizzle] }

/-- A percentile record of the latency fixtures (microseconds). -/
structure Percentiles where
  p50 : ℚ
  p75 : ℚ
  p90 : ℚ
  p95 : ℚ
deriving DecidableEq, Repr

/-- The `latenciesMs` helper of `PocketBaseAndTrailBaseReadLatencies`:
the four percentiles, each converted to milliseconds. -/
def latenciesMs (d : Percentiles) : List ℚ :=
  [d.p50, d.p75, d.p90, d.p95].map (fun p => p / 1000)

/-- The `PocketBaseAndTrailBaseReadLatencies` builder: read-latency
percentiles of the two literal fixtures, in milliseconds. -/
def PocketBaseAndTrailBaseReadLatencies (_ : Unit) : BarChartData :=
  let readTrailbaseMicroS : Percentiles := ⟨3504, 3947, 4393, 4725⟩
  let readPocketbaseMicroS : Percentiles := ⟨12740, 13718, 14755, 15495⟩
  { labels := ["p50", "p75", "p90", "p95"],
    datasets :=
      [{ label := "PocketBase", data := latenciesMs readPocketbaseMicroS,
         backgroundColor := some colors.pocketbase0 },
       { label := "TrailBase", data := latenciesMs readTrailbaseMicroS,
         backgroundColor := some colors.trailbase0 }] }

/-- C7: the chart builders are deterministic, side-effect-free functions:
any two calls on the same (literal) input yield structurally identical
configurations, and those configurations are the fixed labels, dataset
order, and color assignments below. -/
theorem chart_builders_pure :
    (∀ u v : Unit, Duration100kInsertsChart u = Duration100kInsertsChart v) ∧
    (∀ u v : Unit,
        PocketBaseAndTrailBaseReadLatencies u =
          PocketBaseAndTrailBaseReadLatencies v) ∧
    (Duration100kInsertsChart ()).labels =
      ["Time in seconds (lower is faster)"] ∧
    (Duration100kInsertsChart ()).datasets.map BarDataset.label =
      ["SupaBase", "PocketBase TS", "PocketBase Dart (JIT)", "TrailBase TS",
       "TrailBase Dart", "In-process SQLite (Drizzle)"] ∧
    (PocketBaseAndTrailBaseReadLatencies ()).labels =
      ["p50", "p75", "p90", "p95"] ∧
    (PocketBaseAndTrailBaseReadLatencies ()).datasets.map BarDataset.label =
      ["PocketBase", "TrailBase"] ∧
    (PocketBaseAndTrailBaseReadLatencies ()).datasets.map
        BarDataset.backgroundColor =
      [some colors.pocketbase0, some colors.trailbase0] ∧
    (PocketBaseAndTrailBaseReadLatencies ()).datasets.map BarDataset.data =
      [latenciesMs ⟨12740, 13718, 14755, 15495⟩,
       latenciesMs ⟨3504, 3947, 4393, 4725⟩] :=
  ⟨fun _ _ => rfl, fun _ _ => rfl, rfl, rfl, rfl, rfl, rfl, rfl⟩

/-- A datum of the `supabase_utilization` fixture as the two charts use
it: a memory reading and an optional CPU reading. -/
structure UtilDatum where
  memUsageKb : ℚ
  cpuPercent : Option ℚ
deriving DecidableEq, Repr

/-- A point of a line-chart dataset. -/
structure Point where
  x : ℚ
  y : ℚ
deriving DecidableEq, Repr

/-- One line-chart dataset as the utilization charts build it. -/
structure LineDataset where
  label : String
  data : List Point
  fill : Bool
  showLine : Bool
  pointStyle : Bool
deriving DecidableEq, Repr

/-- A line-chart configuration. -/
structure LineChartData where
  labels : List ℕ
  datasets : List LineDataset
deriving DecidableEq, Repr

/-- The JavaScript `String.replace` with a plain-string pattern: only the
first occurrence is replaced. -/
def jsReplaceFirst (s pat rep : String) : String :=
  match s.splitOn pat with
  | [] => s
  | [_] => s
  | x :: rest => x ++ rep ++ String.intercalate pat rest

/-- The point series of `SupaBaseCpuUsageChart`: each datum becomes the
point `(index, cpuPercent ?? 0)`. -/
def cpuPoints (series : List UtilDatum) : List Point :=
  series.enum.map (fun p => { x := (p.1 : ℚ), y := p.2.cpuPercent.getD 0 })

/-- The `SupaBaseCpuUsageChart` builder over the utilization fixture (an
object traversed by `Object.keys`, modelled as a key-ordered association
list). -/
def SupaBaseCpuUsageChart
    (supabaseUtilization : List (String × List UtilDatum)) : LineChartData :=
  { labels := List.range 330,
    datasets := supabaseUtilization.map (fun kv =>
      { label := jsReplaceFirst kv.1 "supabase-" ""
        data := cpuPoints kv.2
        fill := true
        showLine := false
        pointStyle := false }) }

/-- C10: in `SupaBaseCpuUsageChart` every datum maps to a point whose x
coordinate is its index in the series and whose y coordinate is its
`cpuPercent` when present and 0 when missing. -/
theorem supabase_cpu_points :
    (∀ (util : List (String × List UtilDatum)) (k : ℕ),
        (SupaBaseCpuUsageChart util).datasets[k]?.map LineDataset.data =
          util[k]?.map (fun kv => cpuPoints kv.2)) ∧
    (∀ (series : List UtilDatum) (i : ℕ) (d : UtilDatum),
        series[i]? = some d →
        (cpuPoints series)[i]? =
          some (Point.mk (i : ℚ)
            (match d.cpuPercent with
             | some c => c
             | none => 0))) := by
  constructor
  · intro util k
    cases h : util[k]? <;>
      simp [SupaBaseCpuUsageChart, List.getElem?_map, h]
  · intro series i d h
    cases hc : d.cpuPercent <;>
      simp [cpuPoints, List.getElem?_map, List.getElem?_enum, h, hc]

/-- Witness for C10: a two-element series with one missing and one
present CPU reading yields the points `(0, 0)` and `(1, 3)`. -/
theorem supabase_cpu_points_witness :
    ([UtilDatum.mk 1 none, UtilDatum.mk 2 (some 3)] : List UtilDatum)[0]? =
        some (UtilDatum.mk 1 none) ∧
    (cpuPoints [UtilDatum.mk 1 none, UtilDatum.mk 2 (some 3)])[0]? =
      some (Point.mk ((0 : ℕ) : ℚ)
        (match (UtilDatum.mk 1 none).cpuPercent with
         | some c => c
         | none => 0)) ∧
    (cpuPoints [UtilDatum.mk 1 none, UtilDatum.mk 2 (some 3)])[1]? =
      some (Point.mk ((1 : ℕ) : ℚ)
        (match (UtilDatum.mk 2 (some 3)).cpuPercent with
         | some c => c
         | none => 0)) :=
  ⟨rfl,
   supabase_cpu_points.2 [UtilDatum.mk 1 none, UtilDatum.mk 2 (some 3)] 0
     (UtilDatum.mk 1 none) rfl,
   supabase_cpu_points.2 [UtilDatum.mk 1 none, UtilDatum.mk 2 (some 3)] 1
     (UtilDatum.mk 2 (some 3)) rfl⟩
